import Mathlib

/-!
Shallow embedding of the questionnaire backend (`src/server.js`).

The repository holds three near-duplicate variants of the same Express +
SQLite server.  The embedding models the `responses` table as a list of
rows plus the AUTOINCREMENT counter, and each HTTP handler as a pure
function from a database state (and the request data) to a new state and
a response value.  Driver failures of individual SQL statements (the
`err` argument of each sqlite callback) are modelled as explicit Boolean
parameters where a claim depends on them.  Timestamps are natural
numbers; `DATE(x)` is modelled as the day number `x / 86400`.
-/

/-- One persisted row of the `responses` table (CREATE TABLE in server.js).
`first_name` and `email` are `Option String` so that the NOT NULL
invariant is a provable property rather than a typing assumption. -/
structure Row where
  id : Nat
  first_name : Option String
  email : Option String
  question_1 : Option String
  question_2 : Option String
  question_3 : Option String
  question_4 : Option String
  question_5 : Option String
  submitted_at : Nat
  ip_address : Option String
  user_agent : Option String
deriving DecidableEq

/-- The database: the AUTOINCREMENT counter and the stored rows. -/
structure DB where
  nextId : Nat
  rows : List Row
deriving DecidableEq

/-- JavaScript falsiness of a request field that is either a string or
absent: `undefined`, `null` and the empty string are falsy. -/
def falsyStr (o : Option String) : Bool :=
  match o with
  | none => true
  | some s => s.isEmpty

/-- JavaScript `x || null` applied to an optional string field. -/
def orNull (o : Option String) : Option String :=
  if falsyStr o then none else o

/-- Body of POST /api/submit-questionnaire. -/
structure SubmitReq where
  firstName : Option String
  email : Option String
  question1 : Option String
  question2 : Option String
  question3 : Option String
  question4 : Option String
  question5 : Option String
deriving DecidableEq

/-- Response of POST /api/submit-questionnaire. -/
structure SubmitRes where
  status : Nat
  success : Bool
  responseId : Option Nat
  message : String
deriving DecidableEq

/-- The row built by the INSERT of POST /api/submit-questionnaire: the id
is the AUTOINCREMENT counter, the five answers go through `q || null`,
`submitted_at` defaults to the current time. -/
def newRowOf (db : DB) (now : Nat) (req : SubmitReq)
    (ipAddress userAgent : Option String) : Row :=
  { id := db.nextId
    first_name := req.firstName
    email := req.email
    question_1 := orNull req.question1
    question_2 := orNull req.question2
    question_3 := orNull req.question3
    question_4 := orNull req.question4
    question_5 := orNull req.question5
    submitted_at := now
    ip_address := ipAddress
    user_agent := userAgent }

/-- POST /api/submit-questionnaire (variant 1, server.js lines 63-119):
reject when `firstName` or `email` is falsy, otherwise INSERT the row and
answer with `this.lastID`. -/
def submitQuestionnaire (db : DB) (now : Nat) (req : SubmitReq)
    (ipAddress userAgent : Option String) : DB × SubmitRes :=
  if falsyStr req.firstName || falsyStr req.email then
    (db, { status := 400, success := false, responseId := none,
           message := "First name and email are required" })
  else
    ({ nextId := db.nextId + 1, rows := db.rows ++ [newRowOf db now req ipAddress userAgent] },
     { status := 200, success := true, responseId := some db.nextId,
       message := "Response saved successfully" })

/-- ORDER BY submitted_at DESC. -/
def byDateDesc (a b : Row) : Prop :=
  b.submitted_at ≤ a.submitted_at

instance : DecidableRel byDateDesc :=
  fun a b => Nat.decLe b.submitted_at a.submitted_at

instance : IsTotal Row byDateDesc :=
  ⟨fun a b => Nat.le_total b.submitted_at a.submitted_at⟩

instance : IsTrans Row byDateDesc :=
  ⟨fun _ _ _ h1 h2 => Nat.le_trans h2 h1⟩

/-- The row ordering produced by `ORDER BY submitted_at DESC`. -/
def sortRows (l : List Row) : List Row :=
  List.insertionSort byDateDesc l

/-- The projection selected by variant 1's GET /api/responses, which lists
every column except `user_agent`. -/
structure ListedRowV1 where
  id : Nat
  first_name : Option String
  email : Option String
  question_1 : Option String
  question_2 : Option String
  question_3 : Option String
  question_4 : Option String
  question_5 : Option String
  submitted_at : Nat
  ip_address : Option String
deriving DecidableEq

def projV1 (r : Row) : ListedRowV1 :=
  { id := r.id
    first_name := r.first_name
    email := r.email
    question_1 := r.question_1
    question_2 := r.question_2
    question_3 := r.question_3
    question_4 := r.question_4
    question_5 := r.question_5
    submitted_at := r.submitted_at
    ip_address := r.ip_address }

/-- Response of variant 1's GET /api/responses. -/
structure ListResV1 where
  status : Nat
  success : Bool
  count : Nat
  responses : List ListedRowV1
deriving DecidableEq

/-- GET /api/responses (variant 1, lines 122-154): all rows, ten columns,
ORDER BY submitted_at DESC, `count` is the length of the result. -/
def getResponses (db : DB) : ListResV1 :=
  let rs := (sortRows db.rows).map projV1
  { status := 200, success := true, count := rs.length, responses := rs }

/-- Response of variant 3's GET /api/responses (SELECT *). -/
structure ListResV3 where
  status : Nat
  success : Bool
  count : Nat
  responses : List Row
deriving DecidableEq

/-- GET /api/responses (variant 3, lines 797-815): SELECT * ORDER BY
submitted_at DESC. -/
def getResponsesV3 (db : DB) : ListResV3 :=
  let rs := sortRows db.rows
  { status := 200, success := true, count := rs.length, responses := rs }

/-- Response of GET /api/responses/:id. -/
structure GetRes where
  status : Nat
  success : Bool
  response : Option Row
deriving DecidableEq

/-- GET /api/responses/:id (variant 1, lines 157-185): SELECT by primary
key; 404 when no row is found. -/
def getResponseById (db : DB) (id : Nat) : GetRes :=
  match db.rows.find? (fun r => r.id == id) with
  | some row => { status := 200, success := true, response := some row }
  | none => { status := 404, success := false, response := none }

/-- Response of DELETE /api/responses/:id. -/
structure DeleteRes where
  status : Nat
  success : Bool
deriving DecidableEq

/-- DELETE /api/responses/:id (variant 1, lines 217-244): DELETE by
primary key, 404 when `this.changes` is 0. -/
def deleteResponse (db : DB) (id : Nat) : DB × DeleteRes :=
  let changes := (db.rows.filter (fun r => r.id == id)).length
  let db' : DB := { nextId := db.nextId, rows := db.rows.filter (fun r => r.id != id) }
  if changes = 0 then (db', { status := 404, success := false })
  else (db', { status := 200, success := true })

/-- DELETE /api/responses/:id (variant 3, lines 881-898): same DELETE,
but the handler never inspects `this.changes` and always answers
success. -/
def deleteResponseV3 (db : DB) (id : Nat) : DB × DeleteRes :=
  ({ nextId := db.nextId, rows := db.rows.filter (fun r => r.id != id) },
   { status := 200, success := true })

/-- SQLite's ASCII-only case folding used by LIKE. -/
def lowerChar (c : Char) : Char :=
  c.toLower

/-- SQLite LIKE matching: `%` matches any sequence, `_` exactly one
character, anything else one character up to ASCII case folding. -/
def likeMatch : List Char → List Char → Bool
  | [], s => s.isEmpty
  | p :: ps, s =>
    if p = '%' then s.tails.any (fun t => likeMatch ps t)
    else if p = '_' then
      match s with
      | [] => false
      | _ :: s2 => likeMatch ps s2
    else
      match s with
      | [] => false
      | c :: s2 => (lowerChar p == lowerChar c) && likeMatch ps s2

/-- `column LIKE pattern` for a nullable column: NULL never matches. -/
def likeOpt (o : Option String) (pat : List Char) : Bool :=
  match o with
  | none => false
  | some s => likeMatch pat s.data

/-- The pattern built by the search handlers: backtick-template
percent-query-percent. -/
def searchPattern (q : String) : List Char :=
  '%' :: (q.data ++ ['%'])

/-- WHERE first_name LIKE ? OR email LIKE ? for one row. -/
def likeRow (pat : List Char) (r : Row) : Bool :=
  likeOpt r.first_name pat || likeOpt r.email pat

/-- Response of GET /api/search. -/
structure SearchRes where
  status : Nat
  success : Bool
  count : Nat
  responses : List Row
deriving DecidableEq

/-- GET /api/search (variant 1, lines 247-280): 400 when the query is
absent or empty, otherwise LIKE on first_name or email, ORDER BY
submitted_at DESC. -/
def searchResponses (db : DB) (query : Option String) : SearchRes :=
  if falsyStr query then
    { status := 400, success := false, count := 0, responses := [] }
  else
    let q := query.getD ""
    let rs := sortRows (db.rows.filter (likeRow (searchPattern q)))
    { status := 200, success := true, count := rs.length, responses := rs }

/-- GET /api/search (variant 3, lines 901-922): `req.query.query || ''`,
no validation, then the same LIKE query. -/
def searchResponsesV3 (db : DB) (query : Option String) : SearchRes :=
  let q := query.getD ""
  let rs := sortRows (db.rows.filter (likeRow (searchPattern q)))
  { status := 200, success := true, count := rs.length, responses := rs }

/-- Response of GET /api/stats, with one optional field per aggregate. -/
structure StatsRes where
  status : Nat
  success : Bool
  total : Option Nat
  today : Option Nat
  uniqueEmails : Option Nat
deriving DecidableEq

/-- SELECT COUNT(*) FROM responses. -/
def countTotal (db : DB) : Nat :=
  db.rows.length

/-- DATE(x) on the numeric timestamp model: the day number. -/
def dayOf (t : Nat) : Nat :=
  t / 86400

/-- SELECT COUNT(*) WHERE DATE(submitted_at) = DATE('now'). -/
def countToday (db : DB) (now : Nat) : Nat :=
  (db.rows.filter (fun r => dayOf r.submitted_at == dayOf now)).length

/-- SELECT COUNT(DISTINCT email): distinct non-NULL emails. -/
def countUniqueEmails (db : DB) : Nat :=
  ((db.rows.filterMap Row.email).dedup).length

/-- GET /api/stats (variant 1, lines 188-214).  The three Booleans model
the sqlite driver `err` of the three aggregate queries.  The handler
stores `row.count` only when `err` is absent, always increments its
`completed` counter, and once all three callbacks ran it answers
`success: true` with whatever aggregates were collected - a failed
aggregate is silently omitted. -/
def getStats (db : DB) (now : Nat) (errTotal errToday errUnique : Bool) : StatsRes :=
  { status := 200
    success := true
    total := if errTotal then none else some (countTotal db)
    today := if errToday then none else some (countToday db now)
    uniqueEmails := if errUnique then none else some (countUniqueEmails db) }

/-- GET /api/stats (variant 3, lines 845-878): three nested db.get calls;
each one answers 500 on its `err`, and only when none failed does the
handler answer 200 with all three aggregates. -/
def getStatsV3 (db : DB) (now : Nat) (errTotal errToday errUnique : Bool) : StatsRes :=
  if errTotal then
    { status := 500, success := false, total := none, today := none, uniqueEmails := none }
  else if errToday then
    { status := 500, success := false, total := none, today := none, uniqueEmails := none }
  else if errUnique then
    { status := 500, success := false, total := none, today := none, uniqueEmails := none }
  else
    { status := 200, success := true, total := some (countTotal db),
      today := some (countToday db now), uniqueEmails := some (countUniqueEmails db) }

/-- A double-quote character as a string. -/
def dq : String :=
  "\""

/-- One double-quote-enclosed CSV cell. -/
def csvCell (s : String) : String :=
  dq ++ s ++ dq

/-- JavaScript `x || ''` rendering of a nullable column. -/
def orEmpty (o : Option String) : String :=
  o.getD ""

/-- JavaScript template rendering of a nullable column without a
fallback: SQL NULL prints as the string `null`. -/
def orNullText (o : Option String) : String :=
  match o with
  | some s => s
  | none => "null"

/-- Header line of variant 1's CSV export (line 296): no user agent. -/
def csvHeaderV1 : String :=
  "ID,First Name,Email,Question 1,Question 2,Question 3,Question 4,Question 5,Submitted At,IP Address"

/-- Header line of variant 3's CSV export (line 934). -/
def csvHeaderV3 : String :=
  "ID,First Name,Email,Question 1,Question 2,Question 3,Question 4,Question 5,Submitted At,IP Address,User Agent"

/-- One data line of variant 1's export (line 299): the id is rendered
bare, every other field inside double quotes; `question_i` fall back to
the empty string, but a NULL `ip_address` prints as `null`. -/
def csvLineV1 (r : Row) : String :=
  toString r.id ++ "," ++ csvCell (orNullText r.first_name) ++ ","
    ++ csvCell (orNullText r.email) ++ ","
    ++ csvCell (orEmpty r.question_1) ++ "," ++ csvCell (orEmpty r.question_2) ++ ","
    ++ csvCell (orEmpty r.question_3) ++ "," ++ csvCell (orEmpty r.question_4) ++ ","
    ++ csvCell (orEmpty r.question_5) ++ "," ++ csvCell (toString r.submitted_at) ++ ","
    ++ csvCell (orNullText r.ip_address)

/-- One data line of variant 3's export (line 937): also emits the user
agent, and `ip_address`/`user_agent` fall back to the empty string. -/
def csvLineV3 (r : Row) : String :=
  toString r.id ++ "," ++ csvCell (orNullText r.first_name) ++ ","
    ++ csvCell (orNullText r.email) ++ ","
    ++ csvCell (orEmpty r.question_1) ++ "," ++ csvCell (orEmpty r.question_2) ++ ","
    ++ csvCell (orEmpty r.question_3) ++ "," ++ csvCell (orEmpty r.question_4) ++ ","
    ++ csvCell (orEmpty r.question_5) ++ "," ++ csvCell (toString r.submitted_at) ++ ","
    ++ csvCell (orEmpty r.ip_address) ++ "," ++ csvCell (orEmpty r.user_agent)

/-- GET /api/export/csv (variant 1, lines 283-306): header plus one line
per row of SELECT * ORDER BY submitted_at DESC, each line terminated by a
newline. -/
def exportCsvV1 (db : DB) : String :=
  (sortRows db.rows).foldl (fun acc r => acc ++ csvLineV1 r ++ "\n") (csvHeaderV1 ++ "\n")

/-- GET /api/export/csv (variant 3, lines 925-944). -/
def exportCsvV3 (db : DB) : String :=
  (sortRows db.rows).foldl (fun acc r => acc ++ csvLineV3 r ++ "\n") (csvHeaderV3 ++ "\n")

/-- A state-changing request: submit or delete. -/
inductive Op where
  | submit (req : SubmitReq) (ip ua : Option String) (now : Nat)
  | remove (id : Nat)

/-- The database transition of one request. -/
def applyOp (db : DB) : Op → DB
  | Op.submit req ip ua now => (submitQuestionnaire db now req ip ua).1
  | Op.remove id => (deleteResponse db id).1

/-- Run a sequence of requests. -/
def execOps (db : DB) : List Op → DB
  | [] => db
  | op :: ops => execOps (applyOp db op) ops

/-- The freshly created table: AUTOINCREMENT starts at 1. -/
def initDB : DB :=
  { nextId := 1, rows := [] }

/-- The NOT NULL discipline the submit handler enforces on a row. -/
def goodRow (r : Row) : Prop :=
  r.first_name ≠ none ∧ r.first_name ≠ some "" ∧ r.email ≠ none ∧ r.email ≠ some ""

/-- Table invariant: every id is below the AUTOINCREMENT counter, ids
are pairwise distinct, and required fields are present. -/
def dbInv (db : DB) : Prop :=
  (∀ r ∈ db.rows, r.id < db.nextId) ∧ (db.rows.map Row.id).Nodup ∧ ∀ r ∈ db.rows, goodRow r

/-- Spec-side predicate, from the spec wording of the search handler:
the query occurs in the string as a case-insensitive substring. -/
def specContainsCI (q s : List Char) : Prop :=
  ∃ u v, s.map lowerChar = u ++ q.map lowerChar ++ v

/-- Spec-side containment for a nullable column: NULL contains nothing. -/
def optContainsCI (q : List Char) (o : Option String) : Prop :=
  match o with
  | none => False
  | some s => specContainsCI q s.data

instance (r : Row) : Decidable (goodRow r) := by
  unfold goodRow
  infer_instance

instance (db : DB) : Decidable (dbInv db) := by
  unfold dbInv
  infer_instance

/-- Sample rows and tables used by witnesses and counterexamples. -/
def rowA : Row :=
  Row.mk 1 (some "Ana") (some "a@x.com") none none none none none 5 none none

def rowB : Row :=
  Row.mk 2 (some "Diana") (some "d@x.com") (some "yes") none none none none 9 none none

def dbA : DB :=
  DB.mk 2 [rowA]

def dbAB : DB :=
  DB.mk 3 [rowA, rowB]

def reqAna : SubmitReq :=
  SubmitReq.mk (some "Ana") (some "a@x.com") none none none none none

def reqBob : SubmitReq :=
  SubmitReq.mk (some "Bob") (some "b@x.com") (some "hi") none none none none

def reqNoEmail : SubmitReq :=
  SubmitReq.mk (some "Ana") none none none none none none

/-- A row whose name matches the LIKE pattern of the query a-percent-b
without containing it literally. -/
def rowX : Row :=
  Row.mk 1 (some "aXb") (some "e") none none none none none 3 none none

def dbX : DB :=
  DB.mk 2 [rowX]

/-- A row whose name matches the LIKE pattern of the query b-underscore-d
without containing it literally. -/
def rowU : Row :=
  Row.mk 1 (some "bXd") (some "e") none none none none none 3 none none

def dbU : DB :=
  DB.mk 2 [rowU]

/-- A row with a NULL ip_address, exercising the CSV null rendering. -/
def rowN : Row :=
  Row.mk 3 (some "Eve") (some "e@x.com") (some "q1") none none none none 4 none (some "ua")

def dbN : DB :=
  DB.mk 4 [rowA, rowN]

/-- A request field is not JS-falsy exactly when it is a present,
non-empty string. -/
theorem falsyStr_eq_false_iff (o : Option String) :
    falsyStr o = false ↔ o ≠ none ∧ o ≠ some "" := by
  cases o with
  | none => simp [falsyStr]
  | some s =>
    simp only [falsyStr, ne_eq, reduceCtorEq, not_false_eq_true, true_and, Option.some.injEq]
    rw [Bool.eq_false_iff, ne_eq, String.isEmpty_iff]

/-- The database part of a delete is the filtered table, whether or not a
row matched. -/
theorem deleteResponse_fst (db : DB) (id : Nat) :
    (deleteResponse db id).1 = DB.mk db.nextId (db.rows.filter (fun r => r.id != id)) := by
  unfold deleteResponse
  by_cases h : (db.rows.filter (fun r => r.id == id)).length = 0 <;> simp [h]

/-- The empty pattern matches exactly the empty string. -/
theorem likeMatch_nil (s : List Char) : likeMatch [] s = true ↔ s = [] := by
  simp [likeMatch, List.isEmpty_iff]

/-- A leading `%` matches exactly when the rest of the pattern matches
some suffix. -/
theorem likeMatch_percent (ps s : List Char) :
    likeMatch ('%' :: ps) s = true ↔ ∃ t, t <:+ s ∧ likeMatch ps t = true := by
  simp [likeMatch, List.any_eq_true, List.mem_tails]

/-- The pattern built from the empty query matches every string. -/
theorem likeMatch_all (s : List Char) : likeMatch ['%', '%'] s = true := by
  rw [likeMatch_percent]
  refine ⟨[], List.nil_suffix, ?_⟩
  rw [likeMatch_percent]
  exact ⟨[], List.nil_suffix, rfl⟩

/-- With the empty query, a row matches the search WHERE clause exactly
when it has a non-NULL first_name or email. -/
theorem likeRow_empty_query (r : Row) :
    likeRow ['%', '%'] r = (r.first_name.isSome || r.email.isSome) := by
  unfold likeRow
  cases hf : r.first_name <;> cases he : r.email <;>
    simp [likeOpt, likeMatch_all]

/-- C1 (amended): variant 3's statistics handler fails the whole response
with a 500 whenever any of the three aggregate queries fails, and on
success returns all three aggregates (total row count, rows submitted on
the current date, distinct email count); variant 1's handler instead
always answers success, omitting the aggregates whose query failed, and
returns all three aggregates only when no query failed. -/
theorem stats_error_policy (db : DB) (now : Nat) (e1 e2 e3 : Bool) :
    getStatsV3 db now e1 e2 e3 =
      (if e1 || e2 || e3 then StatsRes.mk 500 false none none none
       else StatsRes.mk 200 true (some (countTotal db)) (some (countToday db now))
         (some (countUniqueEmails db))) ∧
    (getStats db now e1 e2 e3).status = 200 ∧
    (getStats db now e1 e2 e3).success = true ∧
    getStats db now false false false =
      StatsRes.mk 200 true (some (countTotal db)) (some (countToday db now))
        (some (countUniqueEmails db)) := by
  cases e1 <;> cases e2 <;> cases e3 <;> simp [getStats, getStatsV3]

/-- C1 counterexample: in variant 1, when the total-count query fails the
response is still a 200 success with the total aggregate silently
omitted, while variant 3 answers 500; the claim that the handler treats
any aggregate failure as a full request failure is false for variant 1. -/
theorem stats_partial_omission :
    (getStats dbA 0 true false false).success = true ∧
    (getStats dbA 0 true false false).status = 200 ∧
    (getStats dbA 0 true false false).total = none ∧
    (getStatsV3 dbA 0 true false false).status = 500 := by
  decide

/-- C2 (amended): variant 1's delete answers not-found when no row has
the requested id, success when a row was deleted, removes exactly the
matching rows, and a second delete of the same id answers not-found;
variant 3's delete performs the same removal but always answers success,
even when no row matched. -/
theorem delete_not_found_policy (db : DB) (id : Nat) :
    ((∀ r ∈ db.rows, r.id ≠ id) →
      (deleteResponse db id).2 = DeleteRes.mk 404 false ∧ (deleteResponse db id).1 = db) ∧
    ((∃ r ∈ db.rows, r.id = id) → (deleteResponse db id).2 = DeleteRes.mk 200 true) ∧
    (∀ r ∈ (deleteResponse db id).1.rows, r.id ≠ id) ∧
    (deleteResponse (deleteResponse db id).1 id).2.status = 404 ∧
    (deleteResponseV3 db id).2 = DeleteRes.mk 200 true := by
  refine ⟨?_, ?_, ?_, ?_, rfl⟩
  · intro h
    have hf : db.rows.filter (fun r => r.id == id) = [] := by
      simp only [List.filter_eq_nil_iff]
      intro r hr
      simpa using h r hr
    have hf2 : db.rows.filter (fun r => r.id != id) = db.rows := by
      rw [List.filter_eq_self]
      intro r hr
      simpa using h r hr
    constructor
    · unfold deleteResponse
      simp [hf]
    · rw [deleteResponse_fst, hf2]
  · rintro ⟨r, hr, rfl⟩
    have hne : (db.rows.filter (fun r' => r'.id == r.id)).length ≠ 0 := by
      simp only [ne_eq, List.length_eq_zero, List.filter_eq_nil_iff, not_forall]
      exact ⟨r, hr, by simp⟩
    unfold deleteResponse
    simp [hne]
  · intro r hr
    rw [deleteResponse_fst] at hr
    have := List.of_mem_filter hr
    simpa using this
  · have hgone : ((deleteResponse db id).1.rows.filter (fun r => r.id == id)) = [] := by
      simp only [List.filter_eq_nil_iff]
      intro r hr
      rw [deleteResponse_fst] at hr
      have := List.of_mem_filter hr
      simpa using this
    generalize hdb : (deleteResponse db id).1 = db2 at hgone ⊢
    unfold deleteResponse
    simp [hgone]

/-- C2 witness: deleting id 1 from a table that has it succeeds, a second
delete of the same id answers 404, and deleting from the empty table
answers 404 (variant 1). -/
theorem delete_not_found_policy_witness :
    (deleteResponse dbA 1).2 = DeleteRes.mk 200 true ∧
    (deleteResponse (deleteResponse dbA 1).1 1).2.status = 404 ∧
    (deleteResponse initDB 1).2 = DeleteRes.mk 404 false :=
  ⟨(delete_not_found_policy dbA 1).2.1 (by decide),
   (delete_not_found_policy dbA 1).2.2.2.1,
   ((delete_not_found_policy initDB 1).1 (by decide)).1⟩

/-- C2 counterexample: variant 3's delete of an id that never existed
(the table is empty) answers 200 success, not the not-found error the
claim requires. -/
theorem delete_v3_success_on_missing :
    initDB.rows = [] ∧
    (deleteResponseV3 initDB 1).2.status = 200 ∧
    (deleteResponseV3 initDB 1).2.success = true := by
  decide

/-- C4 (amended): variant 1's search answers 400 with no results when the
query parameter is absent or empty; variant 3 instead defaults the query
to the empty string and answers 200 with every row whose first_name or
email is non-NULL (the pattern then being a match-everything wildcard). -/
theorem search_requires_query (db : DB) (query : Option String)
    (h : query = none ∨ query = some "") :
    (searchResponses db query).status = 400 ∧
    (searchResponses db query).success = false ∧
    (searchResponses db query).responses = [] ∧
    (searchResponses db query).count = 0 ∧
    (searchResponsesV3 db query).status = 200 ∧
    (searchResponsesV3 db query).success = true ∧
    (searchResponsesV3 db query).responses.Perm
      (db.rows.filter (fun r => r.first_name.isSome || r.email.isSome)) := by
  have hq : falsyStr query = true := by
    rcases h with rfl | rfl <;> rfl
  have hqd : query.getD "" = "" := by
    rcases h with rfl | rfl <;> rfl
  have h3 : db.rows.filter (likeRow (searchPattern (query.getD ""))) =
      db.rows.filter (fun r => r.first_name.isSome || r.email.isSome) := by
    rw [hqd]
    exact List.filter_congr (fun r _ => likeRow_empty_query r)
  refine ⟨?_, ?_, ?_, ?_, rfl, rfl, ?_⟩
  · unfold searchResponses
    simp [hq]
  · unfold searchResponses
    simp [hq]
  · unfold searchResponses
    simp [hq]
  · unfold searchResponses
    simp [hq]
  · show (sortRows (db.rows.filter (likeRow (searchPattern (query.getD ""))))).Perm _
    rw [h3]
    exact List.perm_insertionSort byDateDesc _

/-- C4 witness: with the query absent, variant 1 answers 400 while
variant 3 answers 200 and returns the whole table. -/
theorem search_requires_query_witness :
    (searchResponses dbA none).status = 400 ∧
    (searchResponsesV3 dbA none).status = 200 ∧
    (searchResponsesV3 dbA none).responses.Perm
      (dbA.rows.filter (fun r => r.first_name.isSome || r.email.isSome)) :=
  ⟨(search_requires_query dbA none (Or.inl rfl)).1,
   (search_requires_query dbA none (Or.inl rfl)).2.2.2.2.1,
   (search_requires_query dbA none (Or.inl rfl)).2.2.2.2.2.2⟩

/-- C4 counterexample: variant 3's search with the query parameter absent
does not answer a validation error; it answers 200 success and matches
the whole one-row table. -/
theorem search_v3_accepts_missing_query :
    (searchResponsesV3 dbA none).status = 200 ∧
    (searchResponsesV3 dbA none).success = true ∧
    (searchResponsesV3 dbA none).count = 1 ∧
    (searchResponsesV3 dbA none).responses = [rowA] := by
  decide

/-- C5: a submission whose firstName or email is missing or empty is
rejected with a 400 validation error and writes no row: the table is
returned unchanged. -/
theorem submit_validation_rejects (db : DB) (now : Nat) (req : SubmitReq)
    (ip ua : Option String)
    (h : req.firstName = none ∨ req.firstName = some "" ∨
         req.email = none ∨ req.email = some "") :
    (submitQuestionnaire db now req ip ua).2.status = 400 ∧
    (submitQuestionnaire db now req ip ua).2.success = false ∧
    (submitQuestionnaire db now req ip ua).2.responseId = none ∧
    (submitQuestionnaire db now req ip ua).1 = db := by
  have hf : (falsyStr req.firstName || falsyStr req.email) = true := by
    rcases h with h | h | h | h <;> simp [h, falsyStr, String.isEmpty_iff]
  unfold submitQuestionnaire
  simp [hf]

/-- C5 witness: submitting with no email is rejected and leaves the empty
table empty. -/
theorem submit_validation_rejects_witness :
    reqNoEmail.email = none ∧
    (submitQuestionnaire initDB 7 reqNoEmail none none).2.status = 400 ∧
    (submitQuestionnaire initDB 7 reqNoEmail none none).2.success = false ∧
    (submitQuestionnaire initDB 7 reqNoEmail none none).1 = initDB :=
  ⟨rfl,
   (submit_validation_rejects initDB 7 reqNoEmail none none (Or.inr (Or.inr (Or.inl rfl)))).1,
   (submit_validation_rejects initDB 7 reqNoEmail none none (Or.inr (Or.inr (Or.inl rfl)))).2.1,
   (submit_validation_rejects initDB 7 reqNoEmail none none (Or.inr (Or.inr (Or.inl rfl)))).2.2.2⟩

/-- Lookup of an id absent from the table answers 404. -/
theorem getResponseById_missing (db : DB) (id : Nat)
    (h : ∀ r ∈ db.rows, r.id ≠ id) :
    getResponseById db id = GetRes.mk 404 false none := by
  have h1 : db.rows.find? (fun r => r.id == id) = none :=
    List.find?_eq_none.mpr (fun r hr => by simpa using h r hr)
  unfold getResponseById
  rw [h1]

/-- C6: a valid submission answers success with the fresh AUTOINCREMENT
id, and that id then resolves via get-by-id to the inserted row, whose
first_name and email are the submitted values; an id matching no row
resolves to a 404. -/
theorem submit_then_get_resolves (db : DB) (now : Nat) (req : SubmitReq)
    (ip ua : Option String)
    (hbound : ∀ r ∈ db.rows, r.id < db.nextId)
    (hf : falsyStr req.firstName = false) (he : falsyStr req.email = false) :
    (submitQuestionnaire db now req ip ua).2.success = true ∧
    (submitQuestionnaire db now req ip ua).2.responseId = some db.nextId ∧
    getResponseById (submitQuestionnaire db now req ip ua).1 db.nextId =
      GetRes.mk 200 true (some (newRowOf db now req ip ua)) ∧
    (newRowOf db now req ip ua).first_name = req.firstName ∧
    (newRowOf db now req ip ua).email = req.email ∧
    ∀ id, (∀ r ∈ db.rows, r.id ≠ id) →
      getResponseById db id = GetRes.mk 404 false none := by
  have hc : (falsyStr req.firstName || falsyStr req.email) = false := by
    rw [hf, he]
    rfl
  have hrows : (submitQuestionnaire db now req ip ua).1.rows =
      db.rows ++ [newRowOf db now req ip ua] := by
    unfold submitQuestionnaire
    simp [hc]
  refine ⟨?_, ?_, ?_, rfl, rfl, fun id habs => getResponseById_missing db id habs⟩
  · unfold submitQuestionnaire
    simp [hc]
  · unfold submitQuestionnaire
    simp [hc]
  · have h1 : db.rows.find? (fun r => r.id == db.nextId) = none :=
      List.find?_eq_none.mpr
        (fun r hr => by simp only [beq_iff_eq]; exact Nat.ne_of_lt (hbound r hr))
    have hfind : (submitQuestionnaire db now req ip ua).1.rows.find?
        (fun r => r.id == db.nextId) = some (newRowOf db now req ip ua) := by
      rw [hrows, List.find?_append, h1, Option.none_or]
      exact List.find?_cons_of_pos _ (by simp [newRowOf])
    unfold getResponseById
    rw [hfind]

/-- C6 witness: submitting Ana into the fresh table yields id 1, which
resolves to the row just written; looking up id 5 in the fresh table
answers 404. -/
theorem submit_then_get_resolves_witness :
    (submitQuestionnaire initDB 7 reqAna none none).2.responseId = some 1 ∧
    getResponseById (submitQuestionnaire initDB 7 reqAna none none).1 1 =
      GetRes.mk 200 true (some (newRowOf initDB 7 reqAna none none)) ∧
    getResponseById initDB 5 = GetRes.mk 404 false none := by
  have h := submit_then_get_resolves initDB 7 reqAna none none
    (by decide) (by decide) (by decide)
  exact ⟨h.2.1, h.2.2.1, h.2.2.2.2.2 5 (by decide)⟩

/-- C8: the listing answers 200 with every row of the table exactly once
(as a permutation of the projected table), ordered by submitted_at
descending, and its count equals both the table size and the number of
returned rows; a valid submission grows the table by exactly one row, so
after N valid submissions the listing returns exactly N rows. -/
theorem listing_returns_all_sorted (db : DB) :
    (getResponses db).status = 200 ∧
    (getResponses db).success = true ∧
    (getResponses db).count = db.rows.length ∧
    (getResponses db).count = (getResponses db).responses.length ∧
    (getResponses db).responses.Perm (db.rows.map projV1) ∧
    List.Pairwise (fun a b => b.submitted_at ≤ a.submitted_at)
      (getResponses db).responses ∧
    ∀ now req ip ua, (submitQuestionnaire db now req ip ua).1.rows.length =
      (if falsyStr req.firstName || falsyStr req.email then db.rows.length
       else db.rows.length + 1) := by
  refine ⟨rfl, rfl, ?_, rfl, ?_, ?_, ?_⟩
  · show ((sortRows db.rows).map projV1).length = db.rows.length
    rw [List.length_map]
    exact (List.perm_insertionSort byDateDesc db.rows).length_eq
  · exact (List.perm_insertionSort byDateDesc db.rows).map projV1
  · exact List.Pairwise.map projV1 (fun a b hab => hab)
      (List.sorted_insertionSort byDateDesc db.rows)
  · intro now req ip ua
    by_cases hc : (falsyStr req.firstName || falsyStr req.email) = true
    · simp [submitQuestionnaire, hc]
    · simp [submitQuestionnaire, hc]

/-- A metacharacter-free literal segment followed by a trailing `%`
matches exactly the strings that start with the segment up to ASCII case
folding. -/
theorem likeMatch_seg : ∀ (q : List Char), (∀ c ∈ q, c ≠ '%' ∧ c ≠ '_') →
    ∀ (s : List Char),
    (likeMatch (q ++ ['%']) s = true ↔
      ∃ s1 s2, s = s1 ++ s2 ∧ s1.map lowerChar = q.map lowerChar)
  | [], _, s => by
      constructor
      · intro _
        exact ⟨[], s, rfl, rfl⟩
      · intro _
        show likeMatch ('%' :: []) s = true
        rw [likeMatch_percent]
        exact ⟨[], List.nil_suffix, rfl⟩
  | c :: q, hq, s => by
      have hc := hq c (List.mem_cons_self c q)
      have hq' : ∀ x ∈ q, x ≠ '%' ∧ x ≠ '_' :=
        fun x hx => hq x (List.mem_cons_of_mem c hx)
      cases s with
      | nil =>
          constructor
          · intro h
            rw [List.cons_append] at h
            simp [likeMatch, hc.1, hc.2] at h
          · rintro ⟨s1, s2, h, hm⟩
            have hs1 : s1 = [] := (List.append_eq_nil.mp h.symm).1
            subst hs1
            simp at hm
      | cons d s2 =>
          rw [List.cons_append]
          have hstep : likeMatch (c :: (q ++ ['%'])) (d :: s2) =
              ((lowerChar c == lowerChar d) && likeMatch (q ++ ['%']) s2) := by
            simp [likeMatch, hc.1, hc.2]
          rw [hstep, Bool.and_eq_true, beq_iff_eq, likeMatch_seg q hq' s2]
          constructor
          · rintro ⟨hcd, t1, t2, rfl, hm⟩
            exact ⟨d :: t1, t2, rfl, by simp [hm, hcd]⟩
          · rintro ⟨s1, s3, heq, hm⟩
            cases s1 with
            | nil => simp at hm
            | cons e s1' =>
                rw [List.cons_append] at heq
                injection heq with h1 h2
                subst h1
                simp only [List.map_cons, List.cons.injEq] at hm
                exact ⟨hm.1.symm, s1', s3, h2, hm.2⟩

/-- The pattern percent-query-percent built by the search handler, for a
query free of LIKE metacharacters, matches exactly the strings containing
the query as a case-insensitive substring. -/
theorem likeMatch_searchPattern (q : List Char)
    (hq : ∀ c ∈ q, c ≠ '%' ∧ c ≠ '_') (s : List Char) :
    likeMatch ('%' :: (q ++ ['%'])) s = true ↔ specContainsCI q s := by
  rw [likeMatch_percent]
  unfold specContainsCI
  constructor
  · rintro ⟨t, ⟨u, rfl⟩, ht⟩
    obtain ⟨s1, s2, rfl, hm⟩ := (likeMatch_seg q hq t).mp ht
    refine ⟨u.map lowerChar, s2.map lowerChar, ?_⟩
    simp [hm, List.append_assoc]
  · rintro ⟨u, v, hm⟩
    obtain ⟨l1, l2, rfl, hm1, hm2⟩ := List.map_eq_append_iff.mp hm
    obtain ⟨a, b, rfl, hma, hmb⟩ := List.map_eq_append_iff.mp hm1
    refine ⟨b ++ l2, ⟨a, by rw [List.append_assoc]⟩, ?_⟩
    exact (likeMatch_seg q hq (b ++ l2)).mpr ⟨b, l2, rfl, hmb⟩

/-- Column-level version: a non-NULL column matches the search pattern
exactly when it contains the query case-insensitively, and a NULL column
never matches. -/
theorem likeOpt_searchPattern (q : String)
    (hq : ∀ c ∈ q.data, c ≠ '%' ∧ c ≠ '_') (o : Option String) :
    likeOpt o (searchPattern q) = true ↔ optContainsCI q.data o := by
  cases o with
  | none => simp [likeOpt, optContainsCI]
  | some s =>
      show likeMatch ('%' :: (q.data ++ ['%'])) s.data = true ↔ specContainsCI q.data s.data
      exact likeMatch_searchPattern q.data hq s.data

/-- C7 (amended): for a non-empty query containing no LIKE metacharacter
(no percent and no underscore), the search answers 200 with exactly the
rows whose first_name or email contains the query as a case-insensitive
substring, ordered by submitted_at descending, with the count equal to
the number of results; no match yields an empty result with count 0, not
an error.  With metacharacters in the query the WHERE clause is a
wildcard match rather than literal containment. -/
theorem search_ci_substring_semantics (db : DB) (q : String) (hq : q ≠ "")
    (hmeta : ∀ c ∈ q.data, c ≠ '%' ∧ c ≠ '_') :
    (searchResponses db (some q)).status = 200 ∧
    (searchResponses db (some q)).success = true ∧
    (searchResponses db (some q)).count =
      (searchResponses db (some q)).responses.length ∧
    List.Pairwise byDateDesc (searchResponses db (some q)).responses ∧
    (searchResponses db (some q)).responses.Perm
      (db.rows.filter (likeRow (searchPattern q))) ∧
    (∀ r, likeRow (searchPattern q) r = true ↔
      (optContainsCI q.data r.first_name ∨ optContainsCI q.data r.email)) ∧
    ((∀ r ∈ db.rows, likeRow (searchPattern q) r = false) →
      (searchResponses db (some q)).responses = [] ∧
        (searchResponses db (some q)).count = 0) := by
  have hfq : falsyStr (some q) = false := by
    rw [Bool.eq_false_iff]
    intro h
    exact hq ((String.isEmpty_iff q).mp h)
  have hres : searchResponses db (some q) =
      SearchRes.mk 200 true
        (sortRows (db.rows.filter (likeRow (searchPattern q)))).length
        (sortRows (db.rows.filter (likeRow (searchPattern q)))) := by
    unfold searchResponses
    simp [hfq]
  refine ⟨by rw [hres], by rw [hres], by rw [hres], ?_, ?_, ?_, ?_⟩
  · rw [hres]
    exact List.sorted_insertionSort byDateDesc _
  · rw [hres]
    exact List.perm_insertionSort byDateDesc _
  · intro r
    simp [likeRow, likeOpt_searchPattern q hmeta]
  · intro hnone
    have hf : db.rows.filter (likeRow (searchPattern q)) = [] :=
      List.filter_eq_nil_iff.mpr (fun r hr => by simp [hnone r hr])
    rw [hres, hf]
    exact ⟨rfl, rfl⟩

/-- C7 witness: searching the two-row table for the metacharacter-free
query AN answers 200, returns a permutation of the LIKE-filtered table,
and the row-level WHERE clause coincides with case-insensitive
containment on the sample row. -/
theorem search_ci_substring_semantics_witness :
    (searchResponses dbAB (some "AN")).status = 200 ∧
    (searchResponses dbAB (some "AN")).responses.Perm
      (dbAB.rows.filter (likeRow (searchPattern "AN"))) ∧
    (likeRow (searchPattern "AN") rowA = true ↔
      (optContainsCI "AN".data rowA.first_name ∨
        optContainsCI "AN".data rowA.email)) := by
  have h := search_ci_substring_semantics dbAB "AN" (by decide) (by decide)
  exact ⟨h.1, h.2.2.2.2.1, h.2.2.2.2.2.1 rowA⟩

/-- C7 counterexample: with the query b-underscore-d, the search returns
a row (name bXd) although neither its first_name nor its email contains
the query as a literal case-insensitive substring, because the
underscore acts as a single-character wildcard; so the claim is false for
queries containing LIKE metacharacters. -/
theorem search_metachar_counterexample :
    rowU ∈ (searchResponses dbU (some "b_d")).responses ∧
    ¬ optContainsCI ("b_d".data) rowU.first_name ∧
    ¬ optContainsCI ("b_d".data) rowU.email := by
  refine ⟨by decide, ?_, ?_⟩
  · show ¬ specContainsCI "b_d".data "bXd".data
    rintro ⟨u, v, h⟩
    rw [(by decide : "bXd".data.map lowerChar = ['b', 'x', 'd']),
        (by decide : "b_d".data.map lowerChar = ['b', '_', 'd'])] at h
    have hl := congrArg List.length h
    simp only [List.length_append, List.length_cons, List.length_nil] at hl
    have hu : u = [] := List.eq_nil_of_length_eq_zero (by omega)
    have hv : v = [] := List.eq_nil_of_length_eq_zero (by omega)
    subst hu
    subst hv
    simp only [List.nil_append, List.append_nil] at h
    exact absurd h (by decide)
  · show ¬ specContainsCI "b_d".data "e".data
    rintro ⟨u, v, h⟩
    rw [(by decide : "e".data.map lowerChar = ['e']),
        (by decide : "b_d".data.map lowerChar = ['b', '_', 'd'])] at h
    have hl := congrArg List.length h
    simp only [List.length_append, List.length_cons, List.length_nil] at hl
    omega

/-- C10: the search handler embeds the raw query between percent
wildcards without escaping LIKE metacharacters, so a query containing a
percent matches and returns a row (name aXb) whose first_name and email
do not contain the query as a literal substring. -/
theorem search_wildcard_leak :
    rowX ∈ (searchResponses dbX (some "a%b")).responses ∧
    ¬ optContainsCI ("a%b".data) rowX.first_name ∧
    ¬ optContainsCI ("a%b".data) rowX.email := by
  refine ⟨by decide, ?_, ?_⟩
  · show ¬ specContainsCI "a%b".data "aXb".data
    rintro ⟨u, v, h⟩
    rw [(by decide : "aXb".data.map lowerChar = ['a', 'x', 'b']),
        (by decide : "a%b".data.map lowerChar = ['a', '%', 'b'])] at h
    have hl := congrArg List.length h
    simp only [List.length_append, List.length_cons, List.length_nil] at hl
    have hu : u = [] := List.eq_nil_of_length_eq_zero (by omega)
    have hv : v = [] := List.eq_nil_of_length_eq_zero (by omega)
    subst hu
    subst hv
    simp only [List.nil_append, List.append_nil] at h
    exact absurd h (by decide)
  · show ¬ specContainsCI "a%b".data "e".data
    rintro ⟨u, v, h⟩
    rw [(by decide : "e".data.map lowerChar = ['e']),
        (by decide : "a%b".data.map lowerChar = ['a', '%', 'b'])] at h
    have hl := congrArg List.length h
    simp only [List.length_append, List.length_cons, List.length_nil] at hl
    omega

/-- Unfolding the export fold: the rendered CSV is the initial string
followed by one newline-terminated line per row, in order. -/
theorem csv_foldl_data (f : Row → String) :
    ∀ (l : List Row) (init : String),
      (l.foldl (fun acc r => acc ++ f r ++ "\n") init).data =
        init.data ++ (l.map (fun r => (f r).data ++ ['\n'])).flatten
  | [], init => by simp
  | r :: l, init => by
      rw [List.foldl_cons, csv_foldl_data f l]
      simp [String.data_append, List.append_assoc,
        (by decide : ("\n" : String).data = ['\n'])]

/-- Sum of a map whose values are all 1. -/
theorem sum_map_ones {α : Type} (l : List α) (f : α → Nat)
    (h : ∀ x ∈ l, f x = 1) : (l.map f).sum = l.length := by
  induction l with
  | nil => rfl
  | cons a l ih =>
      simp only [List.map_cons, List.sum_cons, List.length_cons,
        h a (List.mem_cons_self a l)]
      rw [ih (fun x hx => h x (List.mem_cons_of_mem a hx))]
      omega

set_option maxHeartbeats 1000000 in
/-- C3 (amended): the CSV export is the fixed header line followed by
exactly one line per row of the listing, in the same submitted_at
descending order and with the field values rendered by the line function
(id bare, all other fields double-quote-enclosed, null question fields as
empty strings; variant 1 omits the user_agent column and renders a null
ip_address as the string null), provided no rendered line contains a
newline; the line count is then the row count plus the header. -/
theorem csv_export_structure (db : DB)
    (h : ∀ r ∈ db.rows,
      '\n' ∉ (csvLineV3 r).data ∧ '\n' ∉ (csvLineV1 r).data) :
    (exportCsvV3 db).data =
      csvHeaderV3.data ++ '\n' ::
        ((getResponsesV3 db).responses.map
          (fun r => (csvLineV3 r).data ++ ['\n'])).flatten ∧
    (exportCsvV3 db).data.count '\n' = (getResponsesV3 db).count + 1 ∧
    (exportCsvV1 db).data =
      csvHeaderV1.data ++ '\n' ::
        ((getResponsesV3 db).responses.map
          (fun r => (csvLineV1 r).data ++ ['\n'])).flatten ∧
    List.Pairwise byDateDesc (getResponsesV3 db).responses ∧
    (getResponsesV3 db).responses.Perm db.rows := by
  have hsort : ∀ r ∈ sortRows db.rows, r ∈ db.rows :=
    fun r hr => (List.perm_insertionSort byDateDesc db.rows).subset hr
  have hv3 : (exportCsvV3 db).data =
      csvHeaderV3.data ++ '\n' ::
        ((sortRows db.rows).map (fun r => (csvLineV3 r).data ++ ['\n'])).flatten := by
    unfold exportCsvV3
    rw [csv_foldl_data, String.data_append,
      (by decide : ("\n" : String).data = ['\n'])]
    simp [List.append_assoc]
  have hv1 : (exportCsvV1 db).data =
      csvHeaderV1.data ++ '\n' ::
        ((sortRows db.rows).map (fun r => (csvLineV1 r).data ++ ['\n'])).flatten := by
    unfold exportCsvV1
    rw [csv_foldl_data, String.data_append,
      (by decide : ("\n" : String).data = ['\n'])]
    simp [List.append_assoc]
  refine ⟨hv3, ?_, hv1, ?_, ?_⟩
  · show (exportCsvV3 db).data.count '\n' = (sortRows db.rows).length + 1
    rw [hv3, List.count_append, List.count_cons_self,
      (by decide : csvHeaderV3.data.count '\n' = 0), List.count_flatten]
    have hone : ∀ x ∈ (sortRows db.rows).map (fun r => (csvLineV3 r).data ++ ['\n']),
        List.count '\n' x = 1 := by
      intro x hx
      obtain ⟨r, hr, rfl⟩ := List.mem_map.mp hx
      rw [List.count_append, List.count_eq_zero.mpr (h r (hsort r hr)).1]
      rfl
    rw [sum_map_ones _ _ hone, List.length_map]
    omega
  · exact List.sorted_insertionSort byDateDesc db.rows
  · exact List.perm_insertionSort byDateDesc db.rows

/-- C3 witness: the structural theorem evaluated on a two-row table with
null question fields. -/
theorem csv_export_structure_witness :
    (exportCsvV3 dbN).data.count '\n' = (getResponsesV3 dbN).count + 1 ∧
    (getResponsesV3 dbN).responses.Perm dbN.rows := by
  have h := csv_export_structure dbN (by decide)
  exact ⟨h.2.1, h.2.2.2.2⟩

/-- C3 counterexample: the id field of a CSV data line is rendered bare
(the line begins with the digit 1, not a double quote), and variant 1
renders a NULL ip_address as the string null rather than the empty
string; so not every field value is double-quote-enclosed. -/
theorem csv_id_unquoted :
    csvLineV3 rowA = "1,\"Ana\",\"a@x.com\",\"\",\"\",\"\",\"\",\"\",\"5\",\"\",\"\"" ∧
    (csvLineV3 rowA).data.head? = some '1' ∧
    csvLineV1 rowA = "1,\"Ana\",\"a@x.com\",\"\",\"\",\"\",\"\",\"\",\"5\",\"null\"" := by
  decide

/-- The AUTOINCREMENT counter never decreases across one request. -/
theorem nextId_le_applyOp (db : DB) (op : Op) :
    db.nextId ≤ (applyOp db op).nextId := by
  cases op with
  | submit req ip ua now =>
      show db.nextId ≤ (submitQuestionnaire db now req ip ua).1.nextId
      unfold submitQuestionnaire
      by_cases hc : (falsyStr req.firstName || falsyStr req.email) = true
      · simp [hc]
      · simp only [hc]
        simp
  | remove id =>
      show db.nextId ≤ (deleteResponse db id).1.nextId
      rw [deleteResponse_fst]

/-- The AUTOINCREMENT counter never decreases across a run. -/
theorem nextId_le_execOps (db : DB) (ops : List Op) :
    db.nextId ≤ (execOps db ops).nextId := by
  induction ops generalizing db with
  | nil => exact Nat.le_refl _
  | cons op ops ih =>
      exact Nat.le_trans (nextId_le_applyOp db op) (ih (applyOp db op))

/-- A row present after one request was already present, or is the fresh
row carrying the current counter as id. -/
theorem mem_applyOp_rows (db : DB) (op : Op) (r : Row)
    (hr : r ∈ (applyOp db op).rows) : r ∈ db.rows ∨ r.id = db.nextId := by
  cases op with
  | submit req ip ua now =>
      by_cases hc : (falsyStr req.firstName || falsyStr req.email) = true
      · left
        have he : (applyOp db (Op.submit req ip ua now)).rows = db.rows := by
          show (submitQuestionnaire db now req ip ua).1.rows = db.rows
          unfold submitQuestionnaire
          simp [hc]
        rwa [he] at hr
      · have he : (applyOp db (Op.submit req ip ua now)).rows =
            db.rows ++ [newRowOf db now req ip ua] := by
          show (submitQuestionnaire db now req ip ua).1.rows = _
          unfold submitQuestionnaire
          simp [hc]
        rw [he, List.mem_append] at hr
        rcases hr with hr | hr
        · exact Or.inl hr
        · right
          simp only [List.mem_singleton] at hr
          rw [hr]
          rfl
  | remove id =>
      left
      have he : (applyOp db (Op.remove id)).rows =
          db.rows.filter (fun x => x.id != id) := by
        show (deleteResponse db id).1.rows = _
        rw [deleteResponse_fst]
      rw [he] at hr
      exact List.mem_of_mem_filter hr

/-- A row present after a run was already present, or carries an id at
least as large as the counter at the start of the run. -/
theorem mem_execOps_rows (db : DB) (ops : List Op) (r : Row)
    (hr : r ∈ (execOps db ops).rows) : r ∈ db.rows ∨ db.nextId ≤ r.id := by
  induction ops generalizing db with
  | nil => exact Or.inl hr
  | cons op ops ih =>
      rcases ih (applyOp db op) hr with h | h
      · rcases mem_applyOp_rows db op r h with h2 | h2
        · exact Or.inl h2
        · exact Or.inr (Nat.le_of_eq h2.symm)
      · exact Or.inr (Nat.le_trans (nextId_le_applyOp db op) h)

/-- One request preserves the table invariant. -/
theorem dbInv_applyOp (db : DB) (op : Op) (h : dbInv db) :
    dbInv (applyOp db op) := by
  obtain ⟨hb, hn, hg⟩ := h
  cases op with
  | submit req ip ua now =>
      by_cases hc : (falsyStr req.firstName || falsyStr req.email) = true
      · have he : applyOp db (Op.submit req ip ua now) = db := by
          show (submitQuestionnaire db now req ip ua).1 = db
          unfold submitQuestionnaire
          simp [hc]
        rw [he]
        exact ⟨hb, hn, hg⟩
      · have hc' : (falsyStr req.firstName || falsyStr req.email) = false :=
          Bool.eq_false_iff.mpr hc
        have hfn : falsyStr req.firstName = false := (Bool.or_eq_false_iff.mp hc').1
        have hfe : falsyStr req.email = false := (Bool.or_eq_false_iff.mp hc').2
        have he : applyOp db (Op.submit req ip ua now) =
            DB.mk (db.nextId + 1) (db.rows ++ [newRowOf db now req ip ua]) := by
          show (submitQuestionnaire db now req ip ua).1 = _
          unfold submitQuestionnaire
          simp [hc']
        rw [he]
        refine ⟨?_, ?_, ?_⟩
        · intro r hr
          rw [List.mem_append] at hr
          rcases hr with hr | hr
          · exact Nat.lt_succ_of_lt (hb r hr)
          · simp only [List.mem_singleton] at hr
            rw [hr]
            exact Nat.lt_succ_self _
        · show ((db.rows ++ [newRowOf db now req ip ua]).map Row.id).Nodup
          rw [List.map_append, List.nodup_append]
          refine ⟨hn, List.nodup_singleton _, ?_⟩
          intro a ha hmem
          simp only [List.map_cons, List.map_nil, List.mem_singleton] at hmem
          obtain ⟨r, hr, hid⟩ := List.mem_map.mp ha
          rw [hmem] at hid
          exact absurd (hid ▸ hb r hr) (Nat.lt_irrefl _)
        · intro r hr
          rw [List.mem_append] at hr
          rcases hr with hr | hr
          · exact hg r hr
          · simp only [List.mem_singleton] at hr
            rw [hr]
            show req.firstName ≠ none ∧ req.firstName ≠ some "" ∧
              req.email ≠ none ∧ req.email ≠ some ""
            have h1 := (falsyStr_eq_false_iff req.firstName).mp hfn
            have h2 := (falsyStr_eq_false_iff req.email).mp hfe
            exact ⟨h1.1, h1.2, h2.1, h2.2⟩
  | remove id =>
      show dbInv (deleteResponse db id).1
      rw [deleteResponse_fst]
      refine ⟨?_, ?_, ?_⟩
      · intro r hr
        exact hb r (List.mem_of_mem_filter hr)
      · show ((db.rows.filter (fun x => x.id != id)).map Row.id).Nodup
        exact hn.sublist ((List.filter_sublist db.rows).map Row.id)
      · intro r hr
        exact hg r (List.mem_of_mem_filter hr)

/-- A run of requests preserves the table invariant. -/
theorem dbInv_execOps (db : DB) (ops : List Op) (h : dbInv db) :
    dbInv (execOps db ops) := by
  induction ops generalizing db with
  | nil => exact h
  | cons op ops ih => exact ih (applyOp db op) (dbInv_applyOp db op h)

/-- C9: in every state reachable from the fresh table by submit and
delete requests the invariants hold (every id is below the AUTOINCREMENT
counter, ids are pairwise distinct, and first_name and email are present
and non-empty in every persisted row); an id currently absent and below
the counter - in particular any deleted id - is never carried by a row
in any later state (ids are never reused); and a row still present in a
later state is unchanged, so its submitted_at never changes. -/
theorem responses_table_invariants (ops more : List Op) (i : Nat)
    (hlt : i < (execOps initDB ops).nextId)
    (habs : ∀ r ∈ (execOps initDB ops).rows, r.id ≠ i) :
    dbInv (execOps initDB ops) ∧
    (∀ r ∈ (execOps (execOps initDB ops) more).rows, r.id ≠ i) ∧
    (∀ r ∈ (execOps initDB ops).rows,
      ∀ r2 ∈ (execOps (execOps initDB ops) more).rows,
        r2.id = r.id → r2.submitted_at = r.submitted_at ∧ r2 = r) := by
  have hinv : dbInv (execOps initDB ops) :=
    dbInv_execOps initDB ops (by decide)
  refine ⟨hinv, ?_, ?_⟩
  · intro r hr
    rcases mem_execOps_rows _ more r hr with h | h
    · exact habs r h
    · intro he
      rw [he] at h
      omega
  · intro r hr r2 hr2 he
    rcases mem_execOps_rows _ more r2 hr2 with h | h
    · have heq : r2 = r := List.inj_on_of_nodup_map hinv.2.1 h hr he
      exact ⟨by rw [heq], heq⟩
    · exfalso
      have hlt2 := hinv.1 r hr
      omega

/-- C9 witness: submitting Ana, deleting the created row 1, then
submitting Bob keeps the invariant and never reuses id 1. -/
theorem responses_table_invariants_witness :
    dbInv (execOps initDB [Op.submit reqAna none none 5, Op.remove 1]) ∧
    ((execOps (execOps initDB [Op.submit reqAna none none 5, Op.remove 1])
        [Op.submit reqBob none none 6]).rows.all (fun r => r.id != 1)) = true := by
  have h := responses_table_invariants [Op.submit reqAna none none 5, Op.remove 1]
    [Op.submit reqBob none none 6] 1 (by decide) (by decide)
  refine ⟨h.1, ?_⟩
  rw [List.all_eq_true]
  intro r hr
  simpa using h.2.1 r hr
